import Mathlib

/-!
Verification development for the BIO-360 case-review application (src/app.py).

The Python source is shallowly embedded: the dynamic values the Streamlit
form passes into the business layer are modelled by the inductive `Value`
(the app only passes `None`, `int` and `str` into the functions studied
here), a Python `**kwargs` mapping is a partial map `String → Option Value`
where `none` marks an absent key, machine-independent Python integers are
`Int`, and the NumPy statistics are computed over `ℚ` (the population
standard deviation is carried as its square, the population variance,
since the square root leaves `ℚ`).
-/

namespace Bio360

/-- Dynamic Python values crossing the form/`kwargs` boundary of app.py:
the widgets and session fields feeding `CasoBioetico` produce `None`,
`int` or `str`. -/
inductive Value : Type where
  | vNone : Value
  | vInt : Int → Value
  | vStr : String → Value
deriving DecidableEq, Repr

/-- A Python `**kwargs` dictionary: `none` means the key is absent. -/
def Kwargs : Type := String → Option Value

/-- Build a `Kwargs` from an association list (later bindings shadowed,
as in a Python dict literal the first match is taken here for concrete
test inputs where keys are distinct). -/
def Kwargs.ofList (l : List (String × Value)) : Kwargs :=
  fun k => (l.find? (fun p => p.1 == k)).map Prod.snd

/-- Python `kwargs.get(k, d)`. -/
def pyGetD (kw : Kwargs) (k : String) (d : Value) : Value :=
  match kw k with
  | none => d
  | some v => v

/-- Python `kwargs.get(k)` (default `None`). -/
def pyGet (kw : Kwargs) (k : String) : Value :=
  pyGetD kw k Value.vNone

/-- Python truthiness on the modelled values: `None` is falsy, `0` is
falsy, the empty string is falsy, everything else is truthy. -/
def Value.truthy : Value → Bool
  | .vNone => false
  | .vInt n => n != 0
  | .vStr s => s != ""

/-- Python `str(v)` on the modelled values. -/
def pyStr : Value → String
  | .vNone => "None"
  | .vInt n => toString n
  | .vStr s => s

/-- The characters Python `str.strip()` and `int(str)` treat as whitespace
(space, tab, newline, carriage return, vertical tab, form feed). -/
def isPyWs (c : Char) : Bool :=
  c = ' ' || c = '\t' || c = '\n' || c = '\r' || c = Char.ofNat 11 || c = Char.ofNat 12

/-- Strip leading and trailing Python whitespace from a character list. -/
def pyStripList (cs : List Char) : List Char :=
  ((cs.dropWhile isPyWs).reverse.dropWhile isPyWs).reverse

/-- Python `s.strip()`. -/
def pyStrip (s : String) : String :=
  String.mk (pyStripList s.data)

/-- The digit body of a Python base-10 integer literal: non-empty, ASCII
digits with single underscores allowed strictly between digits. Returns
the digits with underscores removed, or `none` when the body is invalid.
(Non-ASCII decimal digits, which CPython also accepts, are not modelled.) -/
def pyIntDigits (cs : List Char) : Option (List Char) :=
  if cs = [] then none
  else if cs.head? = some '_' || cs.getLast? = some '_' then none
  else if (cs.zip cs.tail).any (fun p => p.1 = '_' && p.2 = '_') then none
  else
    let ds := cs.filter (fun c => c != '_')
    if ds.all Char.isDigit then some ds else none

/-- Read a digit list as a natural number. -/
def digitsToNat (ds : List Char) : Nat :=
  ds.foldl (fun a c => 10 * a + (c.toNat - 48)) 0

/-- Python `int(s)` for a string argument: surrounding whitespace is
ignored, one optional sign, then a base-10 digit body; `none` models the
`ValueError` raised on anything else. -/
def pyParseInt (s : String) : Option Int :=
  match pyStripList s.data with
  | '+' :: rest => (pyIntDigits rest).map (fun ds => (digitsToNat ds : Int))
  | '-' :: rest => (pyIntDigits rest).map (fun ds => -(digitsToNat ds : Int))
  | cs => (pyIntDigits cs).map (fun ds => (digitsToNat ds : Int))

/-- Embedding of `safe_int` (src/app.py lines 103-107):
`if value is None or value == '': return default` — `None` and the empty
string short-circuit to the default (an `int` is never `== ''`);
`try: return int(value)` — `int` on an `int` is the identity, on a `str`
it is the base-10 parse; `except (ValueError, TypeError): return default`. -/
def safe_int (value : Value) (default : Int) : Int :=
  match value with
  | .vNone => default
  | .vInt n => n
  | .vStr s =>
    if s = "" then default
    else
      match pyParseInt s with
      | some n => n
      | none => default

/-- The numeric interpretation `safe_int` follows: `none` when the value
is missing, `None`, empty, or fails Python `int()`; `some n` when `int()`
yields `n`. -/
def coercesNumeric : Value → Option Int
  | .vNone => none
  | .vInt n => some n
  | .vStr s => if s = "" then none else pyParseInt s

theorem safe_int_eq_coerces (v : Value) (d : Int) :
    safe_int v d = (coercesNumeric v).getD d := by
  cases v with
  | vNone => rfl
  | vInt n => rfl
  | vStr s =>
    by_cases h : s = ""
    · simp [safe_int, coercesNumeric, h]
    · simp only [safe_int, coercesNumeric, if_neg h]
      cases pyParseInt s <;> rfl

/-- The fixed enumerated dilemma set (src/app.py lines 89-99), in the
dictionary's insertion order. -/
def dilemas_opciones : List String :=
  ["Dilemas Éticos en Neonatología",
   "Limitación del Esfuerzo Terapéutico (Adultos/Pediatría)",
   "Consentimiento Informado",
   "Confidencialidad y Manejo de Datos",
   "Cuidados Paliativos y Futilidad",
   "Eutanasia y Muerte Digna",
   "Asignación de Recursos Escasos",
   "Ética en la Genética y Medicina Predictiva",
   "Conflictos de Interés"]

/-- One stakeholder's four principle scores, in the insertion order of the
dict built by `CasoBioetico._extract_perspective`. -/
structure Perspective : Type where
  autonomia : Int
  beneficencia : Int
  no_maleficencia : Int
  justicia : Int
deriving DecidableEq, Repr

/-- Embedding of `CasoBioetico._extract_perspective` (src/app.py lines
130-137): each principle score is `safe_int(kwargs.get(f'nivel_{p}_{prefix}'))`
with the default 0. -/
def extract_perspective (pfx : String) (kw : Kwargs) : Perspective :=
  ⟨safe_int (pyGet kw ("nivel_autonomia_" ++ pfx)) 0,
   safe_int (pyGet kw ("nivel_beneficencia_" ++ pfx)) 0,
   safe_int (pyGet kw ("nivel_no_maleficencia_" ++ pfx)) 0,
   safe_int (pyGet kw ("nivel_justicia_" ++ pfx)) 0⟩

/-- The case record assembled by `CasoBioetico.__init__` (src/app.py lines
111-128). Fields keep their dynamic `Value` type except the two that go
through `safe_int` and the perspective scores. -/
structure CasoBioetico : Type where
  nombre_paciente : Value
  historia_clinica : Value
  edad : Int
  genero : Value
  nombre_analista : Value
  dilema_etico : Value
  descripcion_caso : Value
  antecedentes_culturales : Value
  condicion : Value
  semanas_gestacion : Int
  puntos_clave_ia : Value
  ai_clinical_analysis_summary : Value
  perspectivas_medico : Perspective
  perspectivas_familia : Perspective
  perspectivas_comite : Perspective
deriving DecidableEq, Repr

/-- Embedding of `CasoBioetico.__init__` (src/app.py lines 111-128).
`ts` is `int(datetime.now().timestamp())` at build time, passed explicitly.
`kwargs.get('historia_clinica') or f"caso_{...}"` keeps the supplied value
when it is truthy and otherwise substitutes the generated identifier. -/
def CasoBioetico.build (ts : Int) (kw : Kwargs) : CasoBioetico where
  nombre_paciente := pyGetD kw "nombre_paciente" (Value.vStr "N/A")
  historia_clinica :=
    if (pyGet kw "historia_clinica").truthy then pyGet kw "historia_clinica"
    else Value.vStr ("caso_" ++ toString ts)
  edad := safe_int (pyGet kw "edad") 0
  genero := pyGetD kw "genero" (Value.vStr "N/A")
  nombre_analista := pyGetD kw "nombre_analista" (Value.vStr "N/A")
  dilema_etico := pyGetD kw "dilema_etico" (Value.vStr dilemas_opciones.headI)
  descripcion_caso := pyGetD kw "descripcion_caso" (Value.vStr "")
  antecedentes_culturales := pyGetD kw "antecedentes_culturales" (Value.vStr "")
  condicion := pyGetD kw "condicion" (Value.vStr "Estable")
  semanas_gestacion := safe_int (pyGet kw "semanas_gestacion") 0
  puntos_clave_ia := pyGetD kw "puntos_clave_ia" (Value.vStr "")
  ai_clinical_analysis_summary := pyGetD kw "ai_clinical_analysis_summary" (Value.vStr "")
  perspectivas_medico := extract_perspective "medico" kw
  perspectivas_familia := extract_perspective "familia" kw
  perspectivas_comite := extract_perspective "comite" kw

/-- List of one stakeholder's scores, `list(data.values())` in the dict's
insertion order, cast to `ℚ` for the NumPy statistics. -/
def Perspective.scoreList (p : Perspective) : List ℚ :=
  [(p.autonomia : ℚ), (p.beneficencia : ℚ), (p.no_maleficencia : ℚ), (p.justicia : ℚ)]

/-- The 3×4 score matrix `np.array([list(d.values()) for d in
perspectivas_data.values()])` (src/app.py line 182): rows are the
stakeholders in dict insertion order (medico, familia, comite), columns
the four principles. -/
def scoresMatrix (caso : CasoBioetico) : List (List ℚ) :=
  [caso.perspectivas_medico.scoreList,
   caso.perspectivas_familia.scoreList,
   caso.perspectivas_comite.scoreList]

/-- One axis-0 column of the score matrix: the three stakeholder values of
the principle selected by `f`. -/
def principleCol (caso : CasoBioetico) (f : Perspective → Int) : List ℚ :=
  [(f caso.perspectivas_medico : ℚ),
   (f caso.perspectivas_familia : ℚ),
   (f caso.perspectivas_comite : ℚ)]

/-- `np.mean` of a vector. -/
def npMean (l : List ℚ) : ℚ :=
  l.sum / l.length

/-- The square of `np.std` of a vector: the population variance (NumPy's
default `ddof=0` divides by N). Carried squared because the square root
leaves `ℚ`; the chart's error bar is its square root. -/
def npPopVar (l : List ℚ) : ℚ :=
  (l.map (fun x => (x - npMean l) ^ 2)).sum / l.length

/-- The parsed content of the two chart payloads returned by
`generar_visualizaciones_avanzadas`: the Plotly JSON serialization itself
is the external charting collaborator's and is opaque to the report, so
the payloads are modelled by the numeric data the source feeds into them. -/
structure ChartJsons : Type where
  radar_comparativo_json : List (List ℚ)
  estadisticas_json : List (ℚ × ℚ)
deriving DecidableEq, Repr

/-- Embedding of `generar_visualizaciones_avanzadas` (src/app.py lines
168-191). The radar traces carry the three stakeholders' score vectors;
the consensus/dissent bars carry, per principle column of the 3×4 matrix
(NumPy `axis=0`), the pair (`np.mean`, square of `np.std`). -/
def generar_visualizaciones_avanzadas (caso : CasoBioetico) : ChartJsons where
  radar_comparativo_json := scoresMatrix caso
  estadisticas_json :=
    [principleCol caso Perspective.autonomia,
     principleCol caso Perspective.beneficencia,
     principleCol caso Perspective.no_maleficencia,
     principleCol caso Perspective.justicia].map
      (fun col => (npMean col, npPopVar col))

/-- One chat turn of the deliberation history. -/
structure ChatMsg : Type where
  role : String
  content : String
deriving DecidableEq, Repr

/-- The report dictionary built by `generar_reporte_completo` (src/app.py
lines 139-166), with its keys as fields. The two chart payload keys are
only present when `chart_jsons` is supplied, hence `Option`. -/
structure ReportDoc : Type where
  id_del_caso : Value
  fecha_analisis : String
  analista : Value
  resumen_del_paciente : String
  dilema_seleccionado : Value
  dilema_sugerido : Option String
  descripcion_caso : Value
  contexto_sociocultural : Value
  puntos_clave : Value
  analisis_historia_clinica : Value
  persp_medico : Perspective
  persp_familia : Perspective
  persp_comite : Perspective
  analisis_deliberativo : String
  chat_deliberacion : List ChatMsg
  radar_chart_json : Option (List (List ℚ))
  stats_chart_json : Option (List (ℚ × ℚ))
deriving DecidableEq, Repr

/-- The patient summary line of `generar_reporte_completo` (src/app.py
lines 141-142): an f-string over name, age, gender and condition, with a
gestational clause appended when `semanas_gestacion > 0`. -/
def resumen_paciente (caso : CasoBioetico) : String :=
  let base := "Paciente " ++ pyStr caso.nombre_paciente ++ ", " ++
    toString caso.edad ++ " años, género " ++ pyStr caso.genero ++
    ", condición " ++ pyStr caso.condicion ++ "."
  if 0 < caso.semanas_gestacion then
    base ++ " Neonato de " ++ toString caso.semanas_gestacion ++ " sem."
  else base

/-- Embedding of `generar_reporte_completo` (src/app.py lines 139-166).
`fecha` is the formatted `datetime.now()` string, passed explicitly. The
deliberative-analysis field starts empty; the chart payloads are copied in
only when `chart_jsons` is supplied (`if chart_jsons:`). -/
def generar_reporte_completo (fecha : String) (caso : CasoBioetico)
    (dilema_sugerido : Option String) (chat_history : List ChatMsg)
    (chart_jsons : Option ChartJsons) : ReportDoc where
  id_del_caso := caso.historia_clinica
  fecha_analisis := fecha
  analista := caso.nombre_analista
  resumen_del_paciente := resumen_paciente caso
  dilema_seleccionado := caso.dilema_etico
  dilema_sugerido := dilema_sugerido
  descripcion_caso := caso.descripcion_caso
  contexto_sociocultural := caso.antecedentes_culturales
  puntos_clave := caso.puntos_clave_ia
  analisis_historia_clinica := caso.ai_clinical_analysis_summary
  persp_medico := caso.perspectivas_medico
  persp_familia := caso.perspectivas_familia
  persp_comite := caso.perspectivas_comite
  analisis_deliberativo := ""
  chat_deliberacion := chat_history
  radar_chart_json := chart_jsons.map ChartJsons.radar_comparativo_json
  stats_chart_json := chart_jsons.map ChartJsons.estadisticas_json

/-- The outcome of the HTTP POST inside `llamar_gemini`, as seen by the
surrounding `try`: either a `requests.exceptions.RequestException`
(connection error, timeout, ...) or a response with a status code and a
parsed JSON body; the body is modelled by the extracted candidate texts
(`None` when the `candidates` key is absent). -/
inductive GeminiHttp : Type where
  | requestError (msg : String)
  | response (status : Nat) (candidates : Option (List String))
deriving DecidableEq, Repr

/-- Embedding of `llamar_gemini` (src/app.py lines 243-258). A raised
`RequestException` — including the `HTTPError` that `raise_for_status()`
raises for a 4xx/5xx status — is caught and converted to the sentinel
`"Error de conexión."`; a well-formed body yields the first candidate's
text; any other body yields the fallback message. -/
def llamar_gemini : GeminiHttp → String
  | .requestError _ => "Error de conexión."
  | .response status candidates =>
    if 400 ≤ status then "Error de conexión."
    else
      match candidates with
      | some (t :: _) => t
      | _ => "No se pudo obtener una respuesta válida."

/-- Storing a (re)generated deliberative analysis into the session report
(src/app.py line 545): only that field changes. -/
def ReportDoc.setAnalisis (r : ReportDoc) (s : String) : ReportDoc :=
  { r with analisis_deliberativo := s }

/-- The slice of `st.session_state` the analysis tab reads and writes. -/
structure SessionState : Type where
  reporte : Option ReportDoc
  case_id : Option Value
  chat_history : List ChatMsg
  dilema_sugerido : Option String
deriving DecidableEq, Repr

/-- Embedding of the in-form dilemma-suggestion submit handler
(src/app.py lines 443-450): the AI's reply is stored stripped, with no
validation against `dilemas_opciones`. -/
def sugerir_dilema_submit (s : SessionState) (aiResponse : GeminiHttp) : SessionState :=
  { s with dilema_sugerido := some (pyStrip (llamar_gemini aiResponse)) }

/-- Result of the main form submission (src/app.py lines 473-518):
`blocked` is the `st.error` branch for a missing case identifier — the
record is not built and the session state is returned untouched;
`processed` carries the new session state and, when the database is
connected, the `(document id, document)` pair written to the store. -/
inductive SubmitResult : Type where
  | blocked (state : SessionState)
  | processed (state : SessionState) (persisted : Option (Value × ReportDoc))
deriving DecidableEq, Repr

/-- Embedding of the main form submit handler (src/app.py lines 473-518).
`historia_clinica` is the text-input value (always a string in the form);
`otherFields` holds the remaining entries of `form_data_for_caso`, the
sliders included; `ts`/`fecha` are the build-time clock readings and
`dbConnected` whether Firebase initialised. On success the chat history is
reset, the report is generated with the session's suggested dilemma and the
fresh chart payloads, and the report is persisted under the case id. -/
def submit_caso (dbConnected : Bool) (ts : Int) (fecha : String)
    (s : SessionState) (historia_clinica : String) (otherFields : Kwargs) :
    SubmitResult :=
  if historia_clinica = "" then .blocked s
  else
    let kw : Kwargs := fun k =>
      if k = "historia_clinica" then some (Value.vStr historia_clinica) else otherFields k
    let caso := CasoBioetico.build ts kw
    let charts := generar_visualizaciones_avanzadas caso
    let reporte := generar_reporte_completo fecha caso s.dilema_sugerido [] (some charts)
    .processed ⟨some reporte, some caso.historia_clinica, [], s.dilema_sugerido⟩
      (if dbConnected then some (caso.historia_clinica, reporte) else none)

/-! ### Helper lemmas -/

theorem caso_generated_id_ne_empty (t : String) : ("caso_" ++ t) ≠ "" := by
  intro h
  have hlen : ("caso_" ++ t).length = 0 := by rw [h]; rfl
  rw [String.length_append] at hlen
  have h5 : "caso_".length = 5 := rfl
  rw [h5] at hlen
  omega

theorem build_historia_cases (ts : Int) (kw : Kwargs) :
    (CasoBioetico.build ts kw).historia_clinica =
      (if (pyGet kw "historia_clinica").truthy then pyGet kw "historia_clinica"
       else Value.vStr ("caso_" ++ toString ts)) := rfl

theorem build_edad_eq (ts : Int) (kw : Kwargs) :
    (CasoBioetico.build ts kw).edad = (coercesNumeric (pyGet kw "edad")).getD 0 :=
  safe_int_eq_coerces _ 0

theorem build_semanas_eq (ts : Int) (kw : Kwargs) :
    (CasoBioetico.build ts kw).semanas_gestacion =
      (coercesNumeric (pyGet kw "semanas_gestacion")).getD 0 :=
  safe_int_eq_coerces _ 0

/-- Arithmetic mean of three values, as the claimed per-principle mean. -/
def mean3 (a b c : ℚ) : ℚ := (a + b + c) / 3

/-- Population variance of three values (divisor 3): the square of the
claimed per-principle population standard deviation. -/
def popVar3 (a b c : ℚ) : ℚ :=
  ((a - mean3 a b c) ^ 2 + (b - mean3 a b c) ^ 2 + (c - mean3 a b c) ^ 2) / 3

theorem npMean_three (a b c : ℚ) : npMean [a, b, c] = mean3 a b c := by
  simp [npMean, mean3]
  ring

theorem npPopVar_three (a b c : ℚ) : npPopVar [a, b, c] = popVar3 a b c := by
  simp [npPopVar, npMean_three, popVar3]
  ring

/-! ### Claim theorems -/

/-- C1 counterexample: the claim says the built record's age and
gestational weeks are always non-negative, but `safe_int` passes negative
numeric input straight through: building with `edad = -5` and
`semanas_gestacion = "-3"` stores the negative values. -/
theorem build_negative_age_counterexample :
    (CasoBioetico.build 0 (Kwargs.ofList
        [("edad", Value.vInt (-5)), ("semanas_gestacion", Value.vStr "-3")])).edad = -5 ∧
    (CasoBioetico.build 0 (Kwargs.ofList
        [("edad", Value.vInt (-5)), ("semanas_gestacion", Value.vStr "-3")])).semanas_gestacion = -3 ∧
    (-5 : Int) < 0 ∧ (-3 : Int) < 0 := by
  refine ⟨by decide, by decide, by decide, by decide⟩

/-- C1 (amended): the built record's age and gestational weeks are always
integers and building never raises; missing, `None` or non-numeric input
coerces to 0, numeric input is stored as parsed, and the fields are
non-negative exactly when every numeric interpretation of the supplied
value is non-negative (the form's bounded number inputs guarantee this,
the builder itself does not). -/
theorem build_age_weeks_coercion (kw : Kwargs) (ts : Int) :
    (coercesNumeric (pyGet kw "edad") = none → (CasoBioetico.build ts kw).edad = 0) ∧
    (∀ n, coercesNumeric (pyGet kw "edad") = some n → (CasoBioetico.build ts kw).edad = n) ∧
    (coercesNumeric (pyGet kw "semanas_gestacion") = none →
      (CasoBioetico.build ts kw).semanas_gestacion = 0) ∧
    (∀ n, coercesNumeric (pyGet kw "semanas_gestacion") = some n →
      (CasoBioetico.build ts kw).semanas_gestacion = n) ∧
    ((∀ n, coercesNumeric (pyGet kw "edad") = some n → 0 ≤ n) →
      0 ≤ (CasoBioetico.build ts kw).edad) ∧
    ((∀ n, coercesNumeric (pyGet kw "semanas_gestacion") = some n → 0 ≤ n) →
      0 ≤ (CasoBioetico.build ts kw).semanas_gestacion) := by
  refine ⟨?_, ?_, ?_, ?_, ?_, ?_⟩
  · intro h; rw [build_edad_eq, h]; rfl
  · intro n h; rw [build_edad_eq, h]; rfl
  · intro h; rw [build_semanas_eq, h]; rfl
  · intro n h; rw [build_semanas_eq, h]; rfl
  · intro h
    rw [build_edad_eq]
    cases hc : coercesNumeric (pyGet kw "edad") with
    | none => simp
    | some n => simpa using h n hc
  · intro h
    rw [build_semanas_eq]
    cases hc : coercesNumeric (pyGet kw "semanas_gestacion") with
    | none => simp
    | some n => simpa using h n hc

/-- C1 witness: instantiating the amended theorem at a non-numeric age. -/
theorem build_age_weeks_coercion_witness :
    (CasoBioetico.build 0 (Kwargs.ofList [("edad", Value.vStr "treinta")])).edad = 0 :=
  (build_age_weeks_coercion (Kwargs.ofList [("edad", Value.vStr "treinta")]) 0).1 (by decide)

/-- C2: `safe_int` is total — it returns an integer for every modelled
input value and never raises — and it returns the supplied default
whenever the value is `None` (which also models an absent key, since
`kwargs.get` yields `None` then), the empty string, or a string that does
not parse as a base-10 integer. -/
theorem safe_int_totality (v : Value) (d : Int) :
    (∃ n : Int, safe_int v d = n) ∧
    (v = Value.vNone → safe_int v d = d) ∧
    (v = Value.vStr "" → safe_int v d = d) ∧
    (∀ s, v = Value.vStr s → pyParseInt s = none → safe_int v d = d) := by
  refine ⟨⟨safe_int v d, rfl⟩, ?_, ?_, ?_⟩
  · rintro rfl; rfl
  · rintro rfl; rfl
  · rintro s rfl h
    rcases eq_or_ne s "" with rfl | hs
    · rfl
    · simp [safe_int, hs, h]

/-- C2 witness: a string that is not a base-10 integer yields the default. -/
theorem safe_int_totality_witness :
    pyParseInt "12a" = none ∧ safe_int (Value.vStr "12a") 7 = 7 :=
  ⟨by decide, (safe_int_totality (Value.vStr "12a") 7).2.2.2 "12a" rfl (by decide)⟩

/-- C3 counterexample: the claim says supplied text fields are stored in
trimmed form, but the builder uses a plain `kwargs.get` with no
`.strip()`: a patient name with surrounding blanks is stored verbatim and
differs from its trimmed form. -/
theorem build_text_untrimmed_counterexample :
    (CasoBioetico.build 0 (Kwargs.ofList
        [("nombre_paciente", Value.vStr " Ana ")])).nombre_paciente = Value.vStr " Ana " ∧
    pyStrip " Ana " = "Ana" ∧
    Value.vStr " Ana " ≠ Value.vStr "Ana" := by
  refine ⟨by decide, by decide, by decide⟩

/-- C3 (amended): for every supplied text field value the builder stores
the value unchanged — no trimming and no string conversion — and stores
the documented default only when the key is absent. -/
theorem build_text_fields_verbatim (kw : Kwargs) (ts : Int) :
    (∀ v, kw "nombre_paciente" = some v →
      (CasoBioetico.build ts kw).nombre_paciente = v) ∧
    (kw "nombre_paciente" = none →
      (CasoBioetico.build ts kw).nombre_paciente = Value.vStr "N/A") ∧
    (∀ v, kw "genero" = some v → (CasoBioetico.build ts kw).genero = v) ∧
    (kw "genero" = none → (CasoBioetico.build ts kw).genero = Value.vStr "N/A") ∧
    (∀ v, kw "nombre_analista" = some v →
      (CasoBioetico.build ts kw).nombre_analista = v) ∧
    (kw "nombre_analista" = none →
      (CasoBioetico.build ts kw).nombre_analista = Value.vStr "N/A") ∧
    (∀ v, kw "descripcion_caso" = some v →
      (CasoBioetico.build ts kw).descripcion_caso = v) ∧
    (kw "descripcion_caso" = none →
      (CasoBioetico.build ts kw).descripcion_caso = Value.vStr "") ∧
    (∀ v, kw "condicion" = some v → (CasoBioetico.build ts kw).condicion = v) ∧
    (kw "condicion" = none → (CasoBioetico.build ts kw).condicion = Value.vStr "Estable") := by
  refine ⟨?_, ?_, ?_, ?_, ?_, ?_, ?_, ?_, ?_, ?_⟩ <;>
    first
      | (intro v h; simp [CasoBioetico.build, pyGetD, h])
      | (intro h; simp [CasoBioetico.build, pyGetD, h])

/-- C3 witness: instantiating the amended theorem at a name with blanks. -/
theorem build_text_fields_verbatim_witness :
    (CasoBioetico.build 0 (Kwargs.ofList
        [("nombre_paciente", Value.vStr " Ana ")])).nombre_paciente = Value.vStr " Ana " :=
  (build_text_fields_verbatim (Kwargs.ofList [("nombre_paciente", Value.vStr " Ana ")]) 0).1
    (Value.vStr " Ana ") (by decide)

/-- C4: whenever the supplied case identifier is absent or falsy (the
empty string, `None` — the `or` fallback), the builder substitutes the
fixed prefix `"caso_"` followed by the integer build timestamp, and the
identifier of a built record is never the empty string nor `None`. -/
theorem build_historia_fallback (kw : Kwargs) (ts : Int) :
    ((pyGet kw "historia_clinica").truthy = false →
      (CasoBioetico.build ts kw).historia_clinica =
        Value.vStr ("caso_" ++ toString ts)) ∧
    (CasoBioetico.build ts kw).historia_clinica ≠ Value.vStr "" ∧
    (CasoBioetico.build ts kw).historia_clinica ≠ Value.vNone := by
  refine ⟨fun h => by simp [CasoBioetico.build, h], ?_, ?_⟩ <;>
  · rw [build_historia_cases]
    rcases pyGet kw "historia_clinica" with _ | n | s <;>
      simp [Value.truthy, caso_generated_id_ne_empty (toString ts)] <;>
        split <;>
          simp_all [bne_iff_ne, caso_generated_id_ne_empty (toString ts)]

/-- C4 witness: building with no identifier at timestamp 12345. -/
theorem build_historia_fallback_witness :
    (CasoBioetico.build 12345 (Kwargs.ofList [])).historia_clinica =
      Value.vStr "caso_12345" :=
  ((build_historia_fallback (Kwargs.ofList []) 12345).1 (by decide)).trans (by decide)

/-- The P3 stakeholder scoring of the spec: medical (5,5,5,5), family
(0,0,0,0), committee (5,0,5,0) over (autonomy, beneficence,
non-maleficence, justice). -/
def kwP3 : Kwargs := Kwargs.ofList
  [("nivel_autonomia_medico", Value.vInt 5), ("nivel_beneficencia_medico", Value.vInt 5),
   ("nivel_no_maleficencia_medico", Value.vInt 5), ("nivel_justicia_medico", Value.vInt 5),
   ("nivel_autonomia_familia", Value.vInt 0), ("nivel_beneficencia_familia", Value.vInt 0),
   ("nivel_no_maleficencia_familia", Value.vInt 0), ("nivel_justicia_familia", Value.vInt 0),
   ("nivel_autonomia_comite", Value.vInt 5), ("nivel_beneficencia_comite", Value.vInt 0),
   ("nivel_no_maleficencia_comite", Value.vInt 5), ("nivel_justicia_comite", Value.vInt 0)]

theorem estadisticas_eq (caso : CasoBioetico) :
    (generar_visualizaciones_avanzadas caso).estadisticas_json =
      [(mean3 (caso.perspectivas_medico.autonomia : ℚ)
          (caso.perspectivas_familia.autonomia : ℚ) (caso.perspectivas_comite.autonomia : ℚ),
        popVar3 (caso.perspectivas_medico.autonomia : ℚ)
          (caso.perspectivas_familia.autonomia : ℚ) (caso.perspectivas_comite.autonomia : ℚ)),
       (mean3 (caso.perspectivas_medico.beneficencia : ℚ)
          (caso.perspectivas_familia.beneficencia : ℚ) (caso.perspectivas_comite.beneficencia : ℚ),
        popVar3 (caso.perspectivas_medico.beneficencia : ℚ)
          (caso.perspectivas_familia.beneficencia : ℚ) (caso.perspectivas_comite.beneficencia : ℚ)),
       (mean3 (caso.perspectivas_medico.no_maleficencia : ℚ)
          (caso.perspectivas_familia.no_maleficencia : ℚ) (caso.perspectivas_comite.no_maleficencia : ℚ),
        popVar3 (caso.perspectivas_medico.no_maleficencia : ℚ)
          (caso.perspectivas_familia.no_maleficencia : ℚ) (caso.perspectivas_comite.no_maleficencia : ℚ)),
       (mean3 (caso.perspectivas_medico.justicia : ℚ)
          (caso.perspectivas_familia.justicia : ℚ) (caso.perspectivas_comite.justicia : ℚ),
        popVar3 (caso.perspectivas_medico.justicia : ℚ)
          (caso.perspectivas_familia.justicia : ℚ) (caso.perspectivas_comite.justicia : ℚ))] := by
  simp [generar_visualizaciones_avanzadas, principleCol, npMean_three, npPopVar_three]

/-- C5: for each of the four principles in the fixed order (autonomy,
beneficence, non-maleficence, justice), the consensus chart carries the
arithmetic mean and the population standard deviation (divisor 3, carried
here as its square) across the three stakeholder values; for the P3
scores, autonomy has mean 10/3 and population standard deviation
`Real.sqrt (50/9)` (≈ 2.36). -/
theorem consensus_aggregates (caso : CasoBioetico) :
    (generar_visualizaciones_avanzadas caso).estadisticas_json =
      [(mean3 (caso.perspectivas_medico.autonomia : ℚ)
          (caso.perspectivas_familia.autonomia : ℚ) (caso.perspectivas_comite.autonomia : ℚ),
        popVar3 (caso.perspectivas_medico.autonomia : ℚ)
          (caso.perspectivas_familia.autonomia : ℚ) (caso.perspectivas_comite.autonomia : ℚ)),
       (mean3 (caso.perspectivas_medico.beneficencia : ℚ)
          (caso.perspectivas_familia.beneficencia : ℚ) (caso.perspectivas_comite.beneficencia : ℚ),
        popVar3 (caso.perspectivas_medico.beneficencia : ℚ)
          (caso.perspectivas_familia.beneficencia : ℚ) (caso.perspectivas_comite.beneficencia : ℚ)),
       (mean3 (caso.perspectivas_medico.no_maleficencia : ℚ)
          (caso.perspectivas_familia.no_maleficencia : ℚ) (caso.perspectivas_comite.no_maleficencia : ℚ),
        popVar3 (caso.perspectivas_medico.no_maleficencia : ℚ)
          (caso.perspectivas_familia.no_maleficencia : ℚ) (caso.perspectivas_comite.no_maleficencia : ℚ)),
       (mean3 (caso.perspectivas_medico.justicia : ℚ)
          (caso.perspectivas_familia.justicia : ℚ) (caso.perspectivas_comite.justicia : ℚ),
        popVar3 (caso.perspectivas_medico.justicia : ℚ)
          (caso.perspectivas_familia.justicia : ℚ) (caso.perspectivas_comite.justicia : ℚ))] ∧
    (generar_visualizaciones_avanzadas (CasoBioetico.build 0 kwP3)).estadisticas_json.headI =
      ((10 : ℚ) / 3, (50 : ℚ) / 9) ∧
    Real.sqrt
        (((generar_visualizaciones_avanzadas (CasoBioetico.build 0 kwP3)).estadisticas_json.headI.2 : ℚ) : ℝ) =
      Real.sqrt (50 / 9) := by
  have hpair : (generar_visualizaciones_avanzadas (CasoBioetico.build 0 kwP3)).estadisticas_json.headI =
      ((10 : ℚ) / 3, (50 : ℚ) / 9) := by
    have hm : (CasoBioetico.build 0 kwP3).perspectivas_medico.autonomia = 5 := by decide
    have hf : (CasoBioetico.build 0 kwP3).perspectivas_familia.autonomia = 0 := by decide
    have hc : (CasoBioetico.build 0 kwP3).perspectivas_comite.autonomia = 5 := by decide
    rw [estadisticas_eq]
    simp only [List.headI, hm, hf, hc]
    norm_num [mean3, popVar3, Prod.ext_iff]
  refine ⟨estadisticas_eq caso, hpair, ?_⟩
  have h2 : ((generar_visualizaciones_avanzadas (CasoBioetico.build 0 kwP3)).estadisticas_json.headI.2 : ℚ) =
      (50 : ℚ) / 9 := by rw [hpair]
  rw [h2]
  push_cast
  norm_num

/-- The concrete kwargs of the P5 summary example, with gestational weeks
`sem`. -/
def kwAna (sem : Int) : Kwargs := Kwargs.ofList
  [("nombre_paciente", Value.vStr "Ana"), ("edad", Value.vInt 30),
   ("genero", Value.vStr "Femenino"), ("condicion", Value.vStr "Estable"),
   ("semanas_gestacion", Value.vInt sem), ("historia_clinica", Value.vStr "HC-001")]

/-- C6: the report's patient summary line is the string interpolation of
patient name, age, gender and condition, with the gestational clause
appended exactly when gestational weeks are positive; on the P5 example
the summary is exactly the claimed text, with and without the clause. -/
theorem resumen_composicion (fecha : String) (ds : Option String)
    (ch : List ChatMsg) (cj : Option ChartJsons) (caso : CasoBioetico) :
    (0 < caso.semanas_gestacion →
      (generar_reporte_completo fecha caso ds ch cj).resumen_del_paciente =
        "Paciente " ++ pyStr caso.nombre_paciente ++ ", " ++ toString caso.edad ++
        " años, género " ++ pyStr caso.genero ++ ", condición " ++ pyStr caso.condicion ++
        "." ++ " Neonato de " ++ toString caso.semanas_gestacion ++ " sem.") ∧
    (caso.semanas_gestacion ≤ 0 →
      (generar_reporte_completo fecha caso ds ch cj).resumen_del_paciente =
        "Paciente " ++ pyStr caso.nombre_paciente ++ ", " ++ toString caso.edad ++
        " años, género " ++ pyStr caso.genero ++ ", condición " ++ pyStr caso.condicion ++ ".") ∧
    (generar_reporte_completo fecha (CasoBioetico.build 0 (kwAna 0)) ds ch cj).resumen_del_paciente =
      "Paciente Ana, 30 años, género Femenino, condición Estable." ∧
    (generar_reporte_completo fecha (CasoBioetico.build 0 (kwAna 28)) ds ch cj).resumen_del_paciente =
      "Paciente Ana, 30 años, género Femenino, condición Estable. Neonato de 28 sem." := by
  have hres : ∀ c : CasoBioetico,
      (generar_reporte_completo fecha c ds ch cj).resumen_del_paciente = resumen_paciente c :=
    fun _ => rfl
  refine ⟨?_, ?_, ?_, ?_⟩
  · intro h
    rw [hres, resumen_paciente, if_pos h]
  · intro h
    rw [hres, resumen_paciente, if_neg (not_lt.mpr h)]
  · rw [hres]; decide
  · rw [hres]; decide

/-- C6 witness: the amended-free theorem applied at the 28-week example. -/
theorem resumen_composicion_witness :
    0 < (CasoBioetico.build 0 (kwAna 28)).semanas_gestacion ∧
    (generar_reporte_completo "2025-01-01" (CasoBioetico.build 0 (kwAna 28)) none [] none).resumen_del_paciente =
      "Paciente Ana, 30 años, género Femenino, condición Estable. Neonato de 28 sem." :=
  ⟨by decide,
   ((resumen_composicion "2025-01-01" none [] none (CasoBioetico.build 0 (kwAna 28))).1
      (by decide)).trans (by decide)⟩

/-- C7: submitting the user-facing form with an empty case identifier is
blocked: the handler returns the validation-error branch with the session
state untouched — no case record is built, no report is generated and
nothing is persisted. -/
theorem submit_empty_id_blocked (dbConnected : Bool) (ts : Int) (fecha : String)
    (s : SessionState) (otherFields : Kwargs) :
    submit_caso dbConnected ts fecha s "" otherFields = SubmitResult.blocked s := rfl

/-- C8: a failed or timed-out network request inside `llamar_gemini` —
a raised `RequestException`, including the `HTTPError` for a 4xx/5xx
status — yields the sentinel string `"Error de conexión."` instead of
propagating, and storing that sentinel as the deliberative analysis leaves
every other report field unchanged. -/
theorem llamar_gemini_sentinel (msg : String) (status : Nat)
    (candidates : Option (List String)) (r : ReportDoc) :
    llamar_gemini (GeminiHttp.requestError msg) = "Error de conexión." ∧
    (400 ≤ status →
      llamar_gemini (GeminiHttp.response status candidates) = "Error de conexión.") ∧
    (r.setAnalisis (llamar_gemini (GeminiHttp.requestError msg))).analisis_deliberativo =
      "Error de conexión." ∧
    (r.setAnalisis (llamar_gemini (GeminiHttp.requestError msg))).id_del_caso = r.id_del_caso ∧
    (r.setAnalisis (llamar_gemini (GeminiHttp.requestError msg))).resumen_del_paciente =
      r.resumen_del_paciente ∧
    (r.setAnalisis (llamar_gemini (GeminiHttp.requestError msg))).dilema_seleccionado =
      r.dilema_seleccionado ∧
    (r.setAnalisis (llamar_gemini (GeminiHttp.requestError msg))).chat_deliberacion =
      r.chat_deliberacion ∧
    (r.setAnalisis (llamar_gemini (GeminiHttp.requestError msg))).radar_chart_json =
      r.radar_chart_json ∧
    (r.setAnalisis (llamar_gemini (GeminiHttp.requestError msg))).stats_chart_json =
      r.stats_chart_json := by
  refine ⟨rfl, fun h => ?_, rfl, rfl, rfl, rfl, rfl, rfl, rfl⟩
  simp [llamar_gemini, h]

/-- C8 witness: the theorem applied to a 500 response. -/
theorem llamar_gemini_sentinel_witness :
    llamar_gemini (GeminiHttp.response 500 none) = "Error de conexión." :=
  (llamar_gemini_sentinel "timeout" 500 none
      ⟨Value.vNone, "", Value.vNone, "", Value.vNone, none, Value.vNone, Value.vNone,
       Value.vNone, Value.vNone, ⟨0, 0, 0, 0⟩, ⟨0, 0, 0, 0⟩, ⟨0, 0, 0, 0⟩, "", [],
       none, none⟩).2.1 (by decide)

/-- C9: the AI's freeform dilemma suggestion is stored as-is (only
stripped) for every string the AI returns, with no validation against
`dilemas_opciones` — a string outside the set is stored unchanged — while
the programmatic dilemma category is a member of the set: the default is
the set's first entry and a form selection from the set stays in the set. -/
theorem dilema_sugerido_unvalidated (s : SessionState) (t : String)
    (kw : Kwargs) (ts : Int) :
    (sugerir_dilema_submit s (GeminiHttp.response 200 (some [t]))).dilema_sugerido =
      some (pyStrip t) ∧
    pyStrip " Dilema Fuera De La Lista " = "Dilema Fuera De La Lista" ∧
    "Dilema Fuera De La Lista" ∉ dilemas_opciones ∧
    (kw "dilema_etico" = none →
      (CasoBioetico.build ts kw).dilema_etico = Value.vStr dilemas_opciones.headI) ∧
    dilemas_opciones.headI ∈ dilemas_opciones ∧
    (∀ d, d ∈ dilemas_opciones → kw "dilema_etico" = some (Value.vStr d) →
      (CasoBioetico.build ts kw).dilema_etico ∈ dilemas_opciones.map Value.vStr) := by
  refine ⟨rfl, by decide, by decide, ?_, by decide, ?_⟩
  · intro h
    simp [CasoBioetico.build, pyGetD, h]
  · intro d hd h
    have hv : (CasoBioetico.build ts kw).dilema_etico = Value.vStr d := by
      simp [CasoBioetico.build, pyGetD, h]
    rw [hv]
    exact List.mem_map_of_mem _ hd

/-- C9 witness: the theorem applied with an absent dilemma key. -/
theorem dilema_sugerido_unvalidated_witness :
    (CasoBioetico.build 0 (Kwargs.ofList [])).dilema_etico =
      Value.vStr "Dilemas Éticos en Neonatología" :=
  ((dilema_sugerido_unvalidated ⟨none, none, [], none⟩ "" (Kwargs.ofList []) 0).2.2.2.1
      (by decide)).trans (by decide)

/-- C10: for the free-text fields, the documented default is substituted
only when the key is entirely absent — an explicitly supplied empty string
or `None` is stored unchanged, so an explicit empty patient name does not
become the `"N/A"` sentinel — whereas for the case identifier an explicit
empty or `None` value also triggers the generated timestamp fallback. -/
theorem explicit_empty_vs_absent (kw : Kwargs) (ts : Int) :
    (kw "nombre_paciente" = some (Value.vStr "") →
      (CasoBioetico.build ts kw).nombre_paciente = Value.vStr "") ∧
    (kw "nombre_paciente" = some Value.vNone →
      (CasoBioetico.build ts kw).nombre_paciente = Value.vNone) ∧
    Value.vStr "" ≠ Value.vStr "N/A" ∧
    (kw "genero" = some (Value.vStr "") →
      (CasoBioetico.build ts kw).genero = Value.vStr "") ∧
    (kw "nombre_analista" = some (Value.vStr "") →
      (CasoBioetico.build ts kw).nombre_analista = Value.vStr "") ∧
    (kw "dilema_etico" = some (Value.vStr "") →
      (CasoBioetico.build ts kw).dilema_etico = Value.vStr "") ∧
    (kw "historia_clinica" = some (Value.vStr "") →
      (CasoBioetico.build ts kw).historia_clinica = Value.vStr ("caso_" ++ toString ts)) ∧
    (kw "historia_clinica" = some Value.vNone →
      (CasoBioetico.build ts kw).historia_clinica = Value.vStr ("caso_" ++ toString ts)) := by
  refine ⟨?_, ?_, by decide, ?_, ?_, ?_, ?_, ?_⟩
  · intro h; simp [CasoBioetico.build, pyGetD, h]
  · intro h; simp [CasoBioetico.build, pyGetD, h]
  · intro h; simp [CasoBioetico.build, pyGetD, h]
  · intro h; simp [CasoBioetico.build, pyGetD, h]
  · intro h; simp [CasoBioetico.build, pyGetD, h]
  · intro h
    rw [build_historia_cases]
    simp [pyGet, pyGetD, h, Value.truthy]
  · intro h
    rw [build_historia_cases]
    simp [pyGet, pyGetD, h, Value.truthy]

/-- C10 witness: an explicitly empty patient name is stored empty. -/
theorem explicit_empty_vs_absent_witness :
    (CasoBioetico.build 0 (Kwargs.ofList
        [("nombre_paciente", Value.vStr "")])).nombre_paciente = Value.vStr "" :=
  (explicit_empty_vs_absent (Kwargs.ofList [("nombre_paciente", Value.vStr "")]) 0).1
    (by decide)

end Bio360
